import Mathlib

/-!
Verification of the mjlab balancing-task term configuration and MDP terms.

Shallow embedding of:
* `src/mjlab/managers/manager_term_config.py` — the term-configuration
  dataclasses (`ObservationTermCfg`, `ObservationGroupCfg`, `RewardTermCfg`,
  `TerminationTermCfg`).
* `src/mjlab/tasks/balancing/balancing_env_cfg.py` — the balancing task's
  observation / reward / termination configuration.
* `src/mjlab/tasks/balancing/mdp/events.py` — `randomize_standing_leg`.
* `src/mjlab/tasks/balancing/mdp/terminations.py` — `both_feet_off_ground`.
* `src/mjlab/tasks/balancing/mdp/rewards.py` — `knee_height_above_threshold`,
  `balanced_stance_duration`.
* `src/mjlab/tasks/balancing/config/g1/flat_env_cfg.py` —
  `G1BalancingEnvCfg.__post_init__`.

Python floats are modelled as rationals (`ℚ`), tensors indexed on the batch
dimension as lists or `Nat`-indexed functions, and the extras dictionary as a
record of `Option` fields (a `none` field is an absent key).
-/

/-- Uniform noise configuration (`UniformNoiseCfg` / `NoiseCfg`). -/
structure NoiseCfg where
  n_min : ℚ
  n_max : ℚ
deriving Repr, DecidableEq

/-- Observation-term configuration, mirroring `ObservationTermCfg` from
`manager_term_config.py` (fields and their defaults). -/
structure ObservationTermCfg where
  func : String
  noise : Option NoiseCfg := none
  clip : Option (ℚ × ℚ) := none
  scale : Option ℚ := none
  delay_min_lag : Nat := 0
  delay_max_lag : Nat := 0
  delay_per_env : Bool := true
  delay_hold_prob : ℚ := 0
  delay_update_period : Nat := 0
  delay_per_env_phase : Bool := true
  history_length : Nat := 0
  flatten_history_dim : Bool := true
deriving Repr, DecidableEq

/-- Observation-group configuration, mirroring `ObservationGroupCfg` from
`manager_term_config.py` (fields and their defaults). -/
structure ObservationGroupCfg where
  concatenate_terms : Bool := true
  concatenate_dim : Int := -1
  enable_corruption : Bool := false
  history_length : Option Nat := none
  flatten_history_dim : Bool := true
deriving Repr, DecidableEq

/-- The default-constructed `ObservationGroupCfg` (all dataclass defaults). -/
def observationGroupCfgDefault : ObservationGroupCfg := {}

/-- Reward-term configuration, mirroring `RewardTermCfg` from
`manager_term_config.py`: a required `func` and a required `weight`
(no default), plus the inherited `params` dictionary (modelled by its keys). -/
structure RewardTermCfg where
  func : String
  params : List String := []
  weight : ℚ
deriving Repr, DecidableEq

/-- Keyword construction of `RewardTermCfg`: the dataclass is `kw_only` and
`weight` has no default, so omitting `weight` (modelled by `none`) raises a
`TypeError` at construction; a provided float is stored unchanged. -/
def mkRewardTermCfg (func : String) (params : List String)
    (weight : Option ℚ) : Except String RewardTermCfg :=
  match weight with
  | none => Except.error ("TypeError: missing required keyword-only argument: weight")
  | some w => Except.ok { func := func, params := params, weight := w }

/-- Termination-term configuration, mirroring `TerminationTermCfg` from
`manager_term_config.py`: `func`, inherited `params` (modelled by its keys),
and `time_out` defaulting to `False`. -/
structure TerminationTermCfg where
  func : String
  params : List String := []
  time_out : Bool := false
deriving Repr, DecidableEq

/-- The balancing task's `TerminationCfg` from `balancing_env_cfg.py`:
a `time_out` term constructed with `time_out=True` and a `fell_over` term
using `bad_orientation` with the dataclass default for `time_out`. -/
structure BalancingTerminationCfg where
  time_out : TerminationTermCfg :=
    { func := "time_out", time_out := true }
  fell_over : TerminationTermCfg :=
    { func := "bad_orientation", params := ["limit_angle"] }
deriving Repr, DecidableEq

/-- The default-constructed balancing `TerminationCfg`. -/
def balancingTerminationCfg : BalancingTerminationCfg := {}

/-- The balancing task's `ObservationCfg.PolicyCfg` from
`balancing_env_cfg.py`: an `ObservationGroupCfg` extended with the five
observation terms; `__post_init__` sets `enable_corruption = True`. -/
structure PolicyCfg extends ObservationGroupCfg where
  base_ang_vel : ObservationTermCfg :=
    { func := "base_ang_vel", noise := some { n_min := -1/5, n_max := 1/5 } }
  projected_gravity : ObservationTermCfg :=
    { func := "projected_gravity", noise := some { n_min := -1/20, n_max := 1/20 } }
  joint_pos : ObservationTermCfg :=
    { func := "joint_pos_rel", noise := some { n_min := -1/100, n_max := 1/100 } }
  joint_vel : ObservationTermCfg :=
    { func := "joint_vel_rel", noise := some { n_min := -3/2, n_max := 3/2 } }
  actions : ObservationTermCfg := { func := "last_action" }
deriving Repr, DecidableEq

/-- Construction of `PolicyCfg`: dataclass field defaults, then
`__post_init__` sets `enable_corruption = True`. -/
def mkPolicyCfg : PolicyCfg :=
  let c : PolicyCfg := {}
  { c with enable_corruption := true }

/-- Construction of `ObservationCfg.PrivilegedCfg` (the critic group): it
subclasses `PolicyCfg`, and its `__post_init__` first calls
`super().__post_init__()` (setting `enable_corruption = True`) and then sets
`enable_corruption = False`. -/
def mkPrivilegedCfg : PolicyCfg :=
  let c : PolicyCfg := mkPolicyCfg
  { c with enable_corruption := false }

/-- The balancing task's `ObservationCfg`: a `policy` group and a
privileged `critic` group. -/
structure BalancingObservationCfg where
  policy : PolicyCfg := mkPolicyCfg
  critic : PolicyCfg := mkPrivilegedCfg
deriving Repr, DecidableEq

/-- The default-constructed balancing `ObservationCfg`. -/
def balancingObservationCfg : BalancingObservationCfg := {}

/-- `both_feet_off_ground` from `terminations.py`: given per-environment
ground-contact sensor readings at index `[i, 0]` for the left and right foot,
returns a boolean tensor of shape `(num_envs,)` whose entry `i` is the
conjunction of the negations of both contact flags (`sensor > 0`). -/
def both_feet_off_ground (num_envs : Nat) (left_sensor right_sensor : Nat → ℚ) :
    List Bool :=
  (List.range num_envs).map fun i =>
    !(decide (left_sensor i > 0)) && !(decide (right_sensor i > 0))

/-- C5: in the balancing termination configuration, the `time_out` term is
flagged `time_out=True`, the `fell_over` term keeps the `TerminationTermCfg`
default `time_out=False`, and so exactly one of the two configured terms is
flagged as a timeout term. -/
theorem balancing_termination_timeout_flags :
    balancingTerminationCfg.time_out.time_out = true ∧
    balancingTerminationCfg.fell_over.time_out = false ∧
    ({ func := "f" } : TerminationTermCfg).time_out = false ∧
    ([balancingTerminationCfg.time_out.time_out,
      balancingTerminationCfg.fell_over.time_out].count true = 1) := by
  refine ⟨rfl, rfl, rfl, rfl⟩

/-- C8: after construction of the balancing observation configuration, the
`policy` group has `enable_corruption = true`, the privileged `critic` group
has `enable_corruption = false`, and the `ObservationGroupCfg` default for
`enable_corruption` is `false`. -/
theorem balancing_observation_corruption_flags :
    balancingObservationCfg.policy.enable_corruption = true ∧
    balancingObservationCfg.critic.enable_corruption = false ∧
    observationGroupCfgDefault.enable_corruption = false := by
  refine ⟨rfl, rfl, rfl⟩

/-- C7: constructing a `RewardTermCfg` without a `weight` argument fails at
construction time with a missing-required-parameter error, while
constructing it with any float weight — including zero and negative
values — succeeds and stores that weight unchanged. -/
theorem reward_term_cfg_weight_required (f : String) (ps : List String)
    (w : ℚ) :
    (∃ msg, mkRewardTermCfg f ps none = Except.error msg) ∧
    mkRewardTermCfg f ps (some w) =
      Except.ok { func := f, params := ps, weight := w } ∧
    mkRewardTermCfg f ps (some 0) =
      Except.ok { func := f, params := ps, weight := 0 } ∧
    mkRewardTermCfg f ps (some (-1)) =
      Except.ok { func := f, params := ps, weight := -1 } := by
  exact ⟨⟨_, rfl⟩, rfl, rfl, rfl⟩

/-- C6: `both_feet_off_ground` returns a boolean tensor of shape
`(num_envs,)` whose entry `i` is `true` iff neither foot's ground-contact
sensor reports a value greater than `0` at index `[i, 0]`. -/
theorem both_feet_off_ground_spec (num_envs : Nat)
    (left_sensor right_sensor : Nat → ℚ) :
    (both_feet_off_ground num_envs left_sensor right_sensor).length = num_envs ∧
    ∀ i, i < num_envs →
      (both_feet_off_ground num_envs left_sensor right_sensor).get? i =
        some (decide (¬ left_sensor i > 0 ∧ ¬ right_sensor i > 0)) := by
  constructor
  · simp [both_feet_off_ground]
  · intro i hi
    simp [both_feet_off_ground, List.get?_eq_getElem?, hi, Bool.and_comm]
    by_cases hl : left_sensor i > 0 <;> by_cases hr : right_sensor i > 0 <;>
      simp [hl, hr, le_of_not_lt]

/-- Field names of the balancing task's `ActionCfg` dataclass. -/
def actionCfgFields : List String := ["joint_pos"]

/-- Field names of the balancing task's `EventCfg` dataclass. -/
def eventCfgFields : List String :=
  ["reset_base", "reset_robot_joints", "randomize_standing_leg",
   "push_robot", "foot_friction"]

/-- Field names of the balancing task's `RewardCfg` dataclass
(`balancing_env_cfg.py`, class `RewardCfg`). -/
def rewardCfgFields : List String :=
  ["upright", "foot_height", "foot_clearance", "static_stance",
   "action_rate_l2"]

/-- Python attribute access on a dataclass instance: succeeds when `name` is
a field of the class, raises `AttributeError` otherwise. -/
def getattrField (fields : List String) (owner name : String) :
    Except String Unit :=
  if name ∈ fields then Except.ok ()
  else
    Except.error
      ("AttributeError: " ++ owner ++ " object has no attribute " ++ name)

/-- `G1BalancingEnvCfg.__post_init__` from `flat_env_cfg.py`, modelled by the
attribute accesses it performs in order: `self.actions.joint_pos` (set the
action scale), `self.events.foot_friction` (disable friction randomization),
then `self.rewards.joint_posture` (set the posture-reward std table) — the
last access is the first to fail if `joint_posture` is not a `RewardCfg`
field, in which case `self.viewer.body_name` is never reached. -/
def g1_balancing_post_init : Except String Unit := do
  getattrField actionCfgFields ("ActionCfg") ("joint_pos")
  getattrField eventCfgFields ("EventCfg") ("foot_friction")
  getattrField rewardCfgFields ("RewardCfg") ("joint_posture")
  Except.ok ()

/-- `G1BalancingEnvCfg_PLAY.__post_init__`: calls
`super().__post_init__()` first, then performs its own attribute updates. -/
def g1_balancing_play_post_init : Except String Unit := do
  g1_balancing_post_init
  getattrField ["policy", "critic"] ("ObservationCfg") ("policy")
  getattrField eventCfgFields ("EventCfg") ("push_robot")
  Except.ok ()

/-- C4: `joint_posture` is not a field of the balancing `RewardCfg`, so
`G1BalancingEnvCfg.__post_init__` — and therefore also
`G1BalancingEnvCfg_PLAY.__post_init__`, which calls it first — raises an
`AttributeError` at construction time for every instantiation. -/
theorem g1_balancing_post_init_attribute_error :
    ("joint_posture" ∉ rewardCfgFields) ∧
    g1_balancing_post_init =
      Except.error
        ("AttributeError: RewardCfg object has no attribute joint_posture") ∧
    g1_balancing_play_post_init =
      Except.error
        ("AttributeError: RewardCfg object has no attribute joint_posture") := by
  refine ⟨by decide, rfl, rfl⟩

/-- `torch.clamp(x, min=lo, max=hi)`. -/
def clampQ (x lo hi : ℚ) : ℚ := min (max x lo) hi

/-- The valid single-leg-stance condition shared by the balancing reward and
termination terms: the standing foot's contact flag is set and the raised
foot's is not (`standing_leg = 0` means standing on the left leg). -/
def valid_single_leg_stance (standing_leg : Int)
    (left_foot_contact right_foot_contact : Bool) : Bool :=
  if standing_leg = 0 then left_foot_contact && !right_foot_contact
  else right_foot_contact && !left_foot_contact

/-- The `relative_knee_height` intermediate of `knee_height_above_threshold`
in `rewards.py`: the raised knee's height above the standing foot, clamped
to `[0, 1]`. -/
def relative_knee_height (standing_leg : Int)
    (left_knee_height right_knee_height : ℚ)
    (left_ankle_height right_ankle_height : ℚ) : ℚ :=
  clampQ
    ((if standing_leg = 0 then right_knee_height else left_knee_height) -
      (if standing_leg = 0 then left_ankle_height else right_ankle_height))
    0 1

/-- The `linear_reward` intermediate of `knee_height_above_threshold`:
`clamp(rel / threshold, 0, 1)`. -/
def knee_linear_reward (threshold rel : ℚ) : ℚ :=
  clampQ (rel / threshold) 0 1

/-- The `above_threshold` intermediate of `knee_height_above_threshold`:
`clamp((rel - threshold) / (threshold * 0.2), 0, 0.5)`. -/
def knee_above_threshold_bonus (threshold rel : ℚ) : ℚ :=
  clampQ ((rel - threshold) / (threshold * (1/5))) 0 (1/2)

/-- `knee_height_above_threshold` from `rewards.py`, for one environment:
inputs are the standing-leg choice, the two foot ground-contact sensor
readings at `[i, 0]`, and the knee/ankle body heights. The `std` parameter is
accepted and unused, exactly as in the source (`del std`). -/
def knee_height_above_threshold (threshold std : ℚ) (standing_leg : Int)
    (left_sensor right_sensor : ℚ)
    (left_knee_height right_knee_height : ℚ)
    (left_ankle_height right_ankle_height : ℚ) : ℚ :=
  let left_foot_contact := decide (left_sensor > 0)
  let right_foot_contact := decide (right_sensor > 0)
  let valid :=
    valid_single_leg_stance standing_leg left_foot_contact right_foot_contact
  let rel := relative_knee_height standing_leg left_knee_height
               right_knee_height left_ankle_height right_ankle_height
  let total_reward :=
    knee_linear_reward threshold rel + knee_above_threshold_bonus threshold rel
  if valid then total_reward else 0

/-- Lower bound of `clampQ` when the clamp interval is nonempty. -/
theorem clampQ_lower (x lo hi : ℚ) (h : lo ≤ hi) : lo ≤ clampQ x lo hi :=
  le_min (le_max_right _ _) h

/-- Upper bound of `clampQ`. -/
theorem clampQ_upper (x lo hi : ℚ) : clampQ x lo hi ≤ hi :=
  min_le_right _ _

/-- C9: for every input, `knee_height_above_threshold` with `threshold > 0`
is total (no error): the relative knee height is clamped to `[0, 1]`, the
linear component to `[0, 1]`, the above-threshold bonus to `[0, 1/2]`, and
the returned reward lies in `[0, 3/2]` when the valid single-leg-stance
condition holds and equals `0` otherwise. -/
theorem knee_height_above_threshold_bounds (threshold std : ℚ)
    (standing_leg : Int) (ls rs lk rk la ra : ℚ) (h : 0 < threshold) :
    (0 ≤ relative_knee_height standing_leg lk rk la ra ∧
      relative_knee_height standing_leg lk rk la ra ≤ 1) ∧
    (0 ≤ knee_linear_reward threshold
          (relative_knee_height standing_leg lk rk la ra) ∧
      knee_linear_reward threshold
        (relative_knee_height standing_leg lk rk la ra) ≤ 1) ∧
    (0 ≤ knee_above_threshold_bonus threshold
          (relative_knee_height standing_leg lk rk la ra) ∧
      knee_above_threshold_bonus threshold
        (relative_knee_height standing_leg lk rk la ra) ≤ 1/2) ∧
    (valid_single_leg_stance standing_leg (decide (ls > 0))
        (decide (rs > 0)) = true →
      knee_height_above_threshold threshold std standing_leg ls rs lk rk la
          ra =
        knee_linear_reward threshold
            (relative_knee_height standing_leg lk rk la ra) +
          knee_above_threshold_bonus threshold
            (relative_knee_height standing_leg lk rk la ra) ∧
      0 ≤ knee_height_above_threshold threshold std standing_leg ls rs lk rk
            la ra ∧
      knee_height_above_threshold threshold std standing_leg ls rs lk rk la
          ra ≤ 3/2) ∧
    (valid_single_leg_stance standing_leg (decide (ls > 0))
        (decide (rs > 0)) = false →
      knee_height_above_threshold threshold std standing_leg ls rs lk rk la
          ra = 0) := by
  have hrel :
      0 ≤ relative_knee_height standing_leg lk rk la ra ∧
        relative_knee_height standing_leg lk rk la ra ≤ 1 :=
    ⟨clampQ_lower _ _ _ (by norm_num), clampQ_upper _ _ _⟩
  have hlin :
      0 ≤ knee_linear_reward threshold
            (relative_knee_height standing_leg lk rk la ra) ∧
        knee_linear_reward threshold
          (relative_knee_height standing_leg lk rk la ra) ≤ 1 :=
    ⟨clampQ_lower _ _ _ (by norm_num), clampQ_upper _ _ _⟩
  have hbon :
      0 ≤ knee_above_threshold_bonus threshold
            (relative_knee_height standing_leg lk rk la ra) ∧
        knee_above_threshold_bonus threshold
          (relative_knee_height standing_leg lk rk la ra) ≤ 1/2 :=
    ⟨clampQ_lower _ _ _ (by norm_num), clampQ_upper _ _ _⟩
  refine ⟨hrel, hlin, hbon, ?_, ?_⟩
  · intro hv
    have hr :
        knee_height_above_threshold threshold std standing_leg ls rs lk rk
            la ra =
          knee_linear_reward threshold
              (relative_knee_height standing_leg lk rk la ra) +
            knee_above_threshold_bonus threshold
              (relative_knee_height standing_leg lk rk la ra) := by
      simp only [knee_height_above_threshold, hv, if_true]
    refine ⟨hr, ?_, ?_⟩
    · rw [hr]; exact add_nonneg hlin.1 hbon.1
    · rw [hr]
      calc knee_linear_reward threshold
              (relative_knee_height standing_leg lk rk la ra) +
            knee_above_threshold_bonus threshold
              (relative_knee_height standing_leg lk rk la ra) ≤ 1 + 1/2 :=
            add_le_add hlin.2 hbon.2
        _ = 3/2 := by norm_num
  · intro hv
    simp [knee_height_above_threshold, hv]

/-- Witness for C9 at a concrete input: `threshold = 2/5` (the configured
0.4 m), standing on the left leg with only the left foot in contact. -/
theorem knee_height_above_threshold_bounds_witness :
    (0 : ℚ) < 2/5 ∧
    ((0 ≤ relative_knee_height 0 0 (1/2) (1/10) 0 ∧
       relative_knee_height 0 0 (1/2) (1/10) 0 ≤ 1) ∧
     (0 ≤ knee_linear_reward (2/5) (relative_knee_height 0 0 (1/2) (1/10) 0) ∧
       knee_linear_reward (2/5)
         (relative_knee_height 0 0 (1/2) (1/10) 0) ≤ 1) ∧
     (0 ≤ knee_above_threshold_bonus (2/5)
           (relative_knee_height 0 0 (1/2) (1/10) 0) ∧
       knee_above_threshold_bonus (2/5)
         (relative_knee_height 0 0 (1/2) (1/10) 0) ≤ 1/2) ∧
     (valid_single_leg_stance 0 (decide ((1 : ℚ) > 0))
         (decide ((0 : ℚ) > 0)) = true →
       knee_height_above_threshold (2/5) (1/2) 0 1 0 0 (1/2) (1/10) 0 =
         knee_linear_reward (2/5)
             (relative_knee_height 0 0 (1/2) (1/10) 0) +
           knee_above_threshold_bonus (2/5)
             (relative_knee_height 0 0 (1/2) (1/10) 0) ∧
       0 ≤ knee_height_above_threshold (2/5) (1/2) 0 1 0 0 (1/2) (1/10) 0 ∧
       knee_height_above_threshold (2/5) (1/2) 0 1 0 0 (1/2) (1/10) 0 ≤
         3/2) ∧
     (valid_single_leg_stance 0 (decide ((1 : ℚ) > 0))
         (decide ((0 : ℚ) > 0)) = false →
       knee_height_above_threshold (2/5) (1/2) 0 1 0 0 (1/2) (1/10) 0 = 0)) :=
  ⟨by norm_num,
   knee_height_above_threshold_bounds (2/5) (1/2) 0 1 0 0 (1/2) (1/10) 0
     (by norm_num)⟩

/-- Modelled from the spec: the noise stage of the observation shaping
pipeline (the observation manager implementation is not in the sources; only
`ObservationTermCfg` and its documented pipeline order are). Element-wise
additive perturbation applied when a noise configuration is present, skipped
entirely when corruption is disabled for the owning group. -/
def noise_stage (enable_corruption : Bool) (noise : Option NoiseCfg)
    (noise_sample : ℚ) (x : ℚ) : ℚ :=
  if enable_corruption then
    match noise with
    | some _ => x + noise_sample
    | none => x
  else x

/-- Modelled from the spec: the clip stage — element-wise clamp to the
configured `[min, max]`, if set. -/
def clip_stage (clip : Option (ℚ × ℚ)) (x : ℚ) : ℚ :=
  match clip with
  | some c => clampQ x c.1 c.2
  | none => x

/-- Modelled from the spec: the scale stage — element-wise multiply, if
set. -/
def scale_stage (scale : Option ℚ) (x : ℚ) : ℚ :=
  match scale with
  | some s => x * s
  | none => x

/-- Modelled from the spec: the delay stage — for a time-indexed signal, the
output at step `t` is the buffered value `lag` steps behind the latest
write. -/
def delay_stage (lag : Nat) (f : Nat → ℚ) (t : Nat) : ℚ :=
  f (t - lag)

/-- Modelled from the spec: the history stage — the last `history_length`
post-delay samples, oldest to newest; with `history_length = 0` the single
post-delay sample. -/
def history_stage (history_length : Nat) (f : Nat → ℚ) (t : Nat) : List ℚ :=
  if history_length = 0 then [f t]
  else (List.range history_length).map fun k =>
    f (t + k - (history_length - 1))

/-- Modelled from the spec: the per-term observation shaping pipeline —
raw computation, then noise, then clip, then scale, then delay, then
history stacking, in this fixed order. -/
def observation_pipeline (cfg : ObservationTermCfg) (enable_corruption : Bool)
    (noise_sample : Nat → ℚ) (lag : Nat) (raw : Nat → ℚ) (t : Nat) :
    List ℚ :=
  history_stage cfg.history_length
    (delay_stage lag fun s =>
      scale_stage cfg.scale
        (clip_stage cfg.clip
          (noise_stage enable_corruption cfg.noise (noise_sample s) (raw s))))
    t

/-- C2: the shaping pipeline applies its stages in the fixed order raw →
noise → clip → scale → delay → history for every term configuration and
input; the noise stage is the identity whenever corruption is disabled for
the owning group, and is the additive perturbation when corruption is
enabled and a noise configuration is present. -/
theorem observation_pipeline_stage_order (cfg : ObservationTermCfg)
    (enable_corruption : Bool) (noise_sample : Nat → ℚ) (lag : Nat)
    (raw : Nat → ℚ) (t : Nat) :
    observation_pipeline cfg enable_corruption noise_sample lag raw t =
      history_stage cfg.history_length
        (delay_stage lag fun s =>
          scale_stage cfg.scale
            (clip_stage cfg.clip
              (noise_stage enable_corruption cfg.noise (noise_sample s)
                (raw s))))
        t ∧
    (∀ n x, noise_stage false cfg.noise n x = x) ∧
    (∀ ncfg n x, noise_stage true (some ncfg) n x = x + n) := by
  refine ⟨rfl, fun n x => rfl, fun ncfg n x => rfl⟩

/-- Indexed scatter-assignment `xs[ids] = vals` on the leading tensor
dimension, as a left fold of single-index writes (later writes win, as in
torch advanced indexing). -/
def scatter {α : Type} : List α → List (Nat × α) → List α
  | xs, [] => xs
  | xs, p :: ps => scatter (xs.set p.1 p.2) ps

/-- The episodic scratch state `env.extras`, restricted to the keys the
balancing task uses; a `none` field models an absent dictionary key. -/
structure Extras where
  standing_leg_choice : Option (List Int) := none
  balanced_stance_counter : Option (List ℚ) := none

/-- `randomize_standing_leg` from `events.py`: lazily create the two extras
entries zero-initialized with leading dimension `num_envs`, then for the
reset subset `env_ids` scatter a fresh `torch.randint(0, 2, ...)` draw into
`standing_leg_choice` and zeros into `balanced_stance_counter`. The random
stream is abstracted as `rand`; `torch.randint(0, 2, ...)` yields
`rand k % 2` at position `k`. -/
def randomize_standing_leg (num_envs : Nat) (env_ids : List Nat)
    (rand : Nat → Nat) (extras : Extras) : Extras :=
  let slc := extras.standing_leg_choice.getD (List.replicate num_envs 0)
  let bsc := extras.balanced_stance_counter.getD (List.replicate num_envs 0)
  let random_choice : List Int :=
    (List.range env_ids.length).map fun k => (rand k : Int) % 2
  { standing_leg_choice := some (scatter slc (env_ids.zip random_choice)),
    balanced_stance_counter :=
      some (scatter bsc (env_ids.zip (List.replicate env_ids.length (0 : ℚ)))) }

/-- `scatter` never changes the length of the tensor it writes into. -/
theorem scatter_length {α : Type} (ps : List (Nat × α)) (xs : List α) :
    (scatter xs ps).length = xs.length := by
  induction ps generalizing xs with
  | nil => rfl
  | cons p ps ih => simp [scatter, ih]

/-- An index not named by any write is untouched by `scatter`. -/
theorem scatter_get?_of_not_mem {α : Type} (ps : List (Nat × α))
    (xs : List α) (j : Nat) (hj : j ∉ ps.map Prod.fst) :
    (scatter xs ps).get? j = xs.get? j := by
  induction ps generalizing xs with
  | nil => rfl
  | cons p ps ih =>
    simp only [List.map_cons, List.mem_cons, not_or] at hj
    rw [scatter, ih _ hj.2, List.get?_set_ne _ _ (Ne.symm hj.1)]

/-- An in-bounds index named by some write ends up holding one of the
written values; any property shared by all written values holds of it. -/
theorem scatter_get?_of_mem {α : Type} (P : α → Prop) (ps : List (Nat × α))
    (xs : List α) (i : Nat) (hP : ∀ p ∈ ps, P p.2)
    (hi : i ∈ ps.map Prod.fst) (hlen : i < xs.length) :
    ∃ v, P v ∧ (scatter xs ps).get? i = some v := by
  induction ps generalizing xs with
  | nil => simp at hi
  | cons p ps ih =>
    rw [scatter]
    by_cases hmem : i ∈ ps.map Prod.fst
    · exact ih (xs.set p.1 p.2)
        (fun q hq => hP q (List.mem_cons_of_mem _ hq)) hmem
        (by simpa using hlen)
    · have hip : i = p.1 := by
        simp only [List.map_cons, List.mem_cons] at hi
        tauto
      refine ⟨p.2, hP p (List.mem_cons_self _ _), ?_⟩
      rw [scatter_get?_of_not_mem ps _ i hmem, hip]
      exact List.get?_set_eq_of_lt _ (by rw [← hip]; exact hlen)

/-- The random draws scattered into `standing_leg_choice` all lie in
`{0, 1}`. -/
theorem randint_draw_mem (env_ids : List Nat) (rand : Nat → Nat) :
    ∀ p ∈ env_ids.zip
        ((List.range env_ids.length).map fun k => (rand k : Int) % 2),
      p.2 = 0 ∨ p.2 = 1 := by
  intro p hp
  have h2 := (List.of_mem_zip hp).2
  simp only [List.mem_map, List.mem_range] at h2
  obtain ⟨k, _, hk⟩ := h2
  rw [← hk]
  exact Int.emod_two_eq_zero_or_one _

/-- The write indices of both scatters used by `randomize_standing_leg` are
exactly `env_ids`. -/
theorem randomize_write_indices (env_ids : List Nat) (rand : Nat → Nat) :
    ((env_ids.zip
        ((List.range env_ids.length).map fun k => (rand k : Int) % 2)).map
      Prod.fst = env_ids) ∧
    ((env_ids.zip (List.replicate env_ids.length (0 : ℚ))).map
      Prod.fst = env_ids) := by
  constructor
  · exact List.map_fst_zip _ _ (by simp)
  · exact List.map_fst_zip _ _ (by simp)

/-- C1: a call to `randomize_standing_leg` in which both extras entries
already exist leaves the values at every environment index `j` outside
`env_ids` bit-identical. -/
theorem randomize_standing_leg_frame_effect (num_envs : Nat)
    (env_ids : List Nat) (rand : Nat → Nat) (extras : Extras)
    (slc : List Int) (bsc : List ℚ) (j : Nat)
    (hslc : extras.standing_leg_choice = some slc)
    (hbsc : extras.balanced_stance_counter = some bsc)
    (hj : j ∉ env_ids) :
    ∃ slc2 bsc2,
      (randomize_standing_leg num_envs env_ids rand
        extras).standing_leg_choice = some slc2 ∧
      (randomize_standing_leg num_envs env_ids rand
        extras).balanced_stance_counter = some bsc2 ∧
      slc2.get? j = slc.get? j ∧ bsc2.get? j = bsc.get? j := by
  refine ⟨_, _, rfl, rfl, ?_, ?_⟩
  · rw [hslc, Option.getD_some, scatter_get?_of_not_mem]
    rw [(randomize_write_indices env_ids rand).1]
    exact hj
  · rw [hbsc, Option.getD_some, scatter_get?_of_not_mem]
    rw [(randomize_write_indices env_ids rand).2]
    exact hj

/-- Witness for C1: two environments, resetting only environment 0 leaves
environment 1's pre-existing extras values unchanged. -/
theorem randomize_standing_leg_frame_effect_witness :
    ∃ slc2 bsc2,
      (randomize_standing_leg 2 [0] (fun k => k)
        { standing_leg_choice := some [5, 7],
          balanced_stance_counter := some [1, 2] }).standing_leg_choice =
        some slc2 ∧
      (randomize_standing_leg 2 [0] (fun k => k)
        { standing_leg_choice := some [5, 7],
          balanced_stance_counter := some [1, 2] }).balanced_stance_counter =
        some bsc2 ∧
      slc2.get? 1 = ([5, 7] : List Int).get? 1 ∧
      bsc2.get? 1 = ([1, 2] : List ℚ).get? 1 :=
  randomize_standing_leg_frame_effect 2 [0] (fun k => k)
    { standing_leg_choice := some [5, 7], balanced_stance_counter := some [1, 2] }
    [5, 7] [1, 2] 1 rfl rfl (by decide)

/-- C3: after a call to `randomize_standing_leg`, both extras entries exist
with leading dimension `num_envs` (created zero-initialized on first access
when absent), every reset environment `i ∈ env_ids` holds a standing-leg
choice in `{0, 1}` and a zero stance counter, and when an entry was freshly
created its values outside `env_ids` are the creation zeros. -/
theorem randomize_standing_leg_reset_semantics (num_envs : Nat)
    (env_ids : List Nat) (rand : Nat → Nat) (extras : Extras)
    (hslc : ∀ l, extras.standing_leg_choice = some l → l.length = num_envs)
    (hbsc : ∀ l, extras.balanced_stance_counter = some l → l.length = num_envs)
    (i : Nat) (hi : i ∈ env_ids) (hin : i < num_envs) :
    ∃ slc2 bsc2,
      (randomize_standing_leg num_envs env_ids rand
        extras).standing_leg_choice = some slc2 ∧
      (randomize_standing_leg num_envs env_ids rand
        extras).balanced_stance_counter = some bsc2 ∧
      slc2.length = num_envs ∧ bsc2.length = num_envs ∧
      (∃ v, (v = 0 ∨ v = 1) ∧ slc2.get? i = some v) ∧
      bsc2.get? i = some 0 ∧
      (extras.standing_leg_choice = none → ∀ j, j ∉ env_ids →
        slc2.get? j = (List.replicate num_envs (0 : Int)).get? j) ∧
      (extras.balanced_stance_counter = none → ∀ j, j ∉ env_ids →
        bsc2.get? j = (List.replicate num_envs (0 : ℚ)).get? j) := by
  have hlen_slc :
      (extras.standing_leg_choice.getD
        (List.replicate num_envs (0 : Int))).length = num_envs := by
    cases h : extras.standing_leg_choice with
    | none => simp
    | some l => simpa using hslc l h
  have hlen_bsc :
      (extras.balanced_stance_counter.getD
        (List.replicate num_envs (0 : ℚ))).length = num_envs := by
    cases h : extras.balanced_stance_counter with
    | none => simp
    | some l => simpa using hbsc l h
  refine ⟨_, _, rfl, rfl, ?_, ?_, ?_, ?_, ?_, ?_⟩
  · rw [scatter_length]; exact hlen_slc
  · rw [scatter_length]; exact hlen_bsc
  · refine scatter_get?_of_mem _ _ _ i (randint_draw_mem env_ids rand) ?_ ?_
    · rw [(randomize_write_indices env_ids rand).1]; exact hi
    · rw [hlen_slc]; exact hin
  · have hmem :
        ∃ v, v = (0 : ℚ) ∧
          (scatter
            (extras.balanced_stance_counter.getD
              (List.replicate num_envs (0 : ℚ)))
            (env_ids.zip (List.replicate env_ids.length (0 : ℚ)))).get? i =
            some v := by
      refine scatter_get?_of_mem _ _ _ i ?_ ?_ ?_
      · intro p hp
        exact List.eq_of_mem_replicate (List.of_mem_zip hp).2
      · rw [(randomize_write_indices env_ids rand).2]; exact hi
      · rw [hlen_bsc]; exact hin
    obtain ⟨v, hv, hget⟩ := hmem
    rw [hv] at hget
    exact hget
  · intro hnone j hj
    rw [hnone, Option.getD_none, scatter_get?_of_not_mem]
    rw [(randomize_write_indices env_ids rand).1]
    exact hj
  · intro hnone j hj
    rw [hnone, Option.getD_none, scatter_get?_of_not_mem]
    rw [(randomize_write_indices env_ids rand).2]
    exact hj

/-- Witness for C3: two fresh environments (no extras yet), resetting
environment 1. -/
theorem randomize_standing_leg_reset_semantics_witness :
    ∃ slc2 bsc2,
      (randomize_standing_leg 2 [1] (fun k => k)
        { standing_leg_choice := none,
          balanced_stance_counter := none }).standing_leg_choice =
        some slc2 ∧
      (randomize_standing_leg 2 [1] (fun k => k)
        { standing_leg_choice := none,
          balanced_stance_counter := none }).balanced_stance_counter =
        some bsc2 ∧
      slc2.length = 2 ∧ bsc2.length = 2 ∧
      (∃ v, (v = 0 ∨ v = 1) ∧ slc2.get? 1 = some v) ∧
      bsc2.get? 1 = some 0 ∧
      ((none : Option (List Int)) = none → ∀ j, j ∉ [1] →
        slc2.get? j = (List.replicate 2 (0 : Int)).get? j) ∧
      ((none : Option (List ℚ)) = none → ∀ j, j ∉ [1] →
        bsc2.get? j = (List.replicate 2 (0 : ℚ)).get? j) :=
  randomize_standing_leg_reset_semantics 2 [1] (fun k => k)
    { standing_leg_choice := none, balanced_stance_counter := none }
    (fun l h => by cases h) (fun l h => by cases h)
    1 (by decide) (by decide)

/-- The counter update of `balanced_stance_duration` from `rewards.py`, for
one environment: the counter is lazily created at `0` when absent, then
incremented by `env.step_dt` if the environment is in valid single-leg
stance (standing foot's contact sensor `> 0`, raised foot's not) and reset
to `0` otherwise. -/
def balanced_stance_counter_next (prev_counter : Option ℚ)
    (standing_leg : Int) (left_sensor right_sensor : ℚ)
    (step_dt : ℚ) : ℚ :=
  let counter := prev_counter.getD 0
  let left_foot_contact := decide (left_sensor > 0)
  let right_foot_contact := decide (right_sensor > 0)
  if valid_single_leg_stance standing_leg left_foot_contact right_foot_contact
  then counter + step_dt
  else 0

/-- The reward returned by `balanced_stance_duration`:
`tanh(counter / 3.0)` applied to the updated counter. -/
noncomputable def balanced_stance_duration_reward (prev_counter : Option ℚ)
    (standing_leg : Int) (left_sensor right_sensor : ℚ)
    (step_dt : ℚ) : ℝ :=
  Real.tanh
    ((balanced_stance_counter_next prev_counter standing_leg left_sensor
        right_sensor step_dt : ℚ) / 3)

/-- `tanh` maps nonnegative reals into `[0, 1)`. -/
theorem tanh_nonneg_lt_one (x : ℝ) (hx : 0 ≤ x) :
    0 ≤ Real.tanh x ∧ Real.tanh x < 1 := by
  rw [Real.tanh_eq_sinh_div_cosh]
  constructor
  · exact div_nonneg (Real.sinh_nonneg_iff.mpr hx) (Real.cosh_pos x).le
  · exact (div_lt_one (Real.cosh_pos x)).mpr (Real.sinh_lt_cosh x)

/-- C10: each `balanced_stance_duration` call updates the counter to the
previous value (zero when freshly created) plus `step_dt` in valid
single-leg stance and to `0` otherwise, and the returned reward equals
`tanh(counter / 3)`, which lies in `[0, 1)`. -/
theorem balanced_stance_duration_spec (prev_counter : Option ℚ)
    (standing_leg : Int) (ls rs step_dt : ℚ)
    (hprev : 0 ≤ prev_counter.getD 0) (hdt : 0 ≤ step_dt) :
    (valid_single_leg_stance standing_leg (decide (ls > 0))
        (decide (rs > 0)) = true →
      balanced_stance_counter_next prev_counter standing_leg ls rs step_dt =
        prev_counter.getD 0 + step_dt) ∧
    (valid_single_leg_stance standing_leg (decide (ls > 0))
        (decide (rs > 0)) = false →
      balanced_stance_counter_next prev_counter standing_leg ls rs step_dt =
        0) ∧
    (prev_counter = none → prev_counter.getD 0 = 0) ∧
    balanced_stance_duration_reward prev_counter standing_leg ls rs step_dt =
      Real.tanh
        ((balanced_stance_counter_next prev_counter standing_leg ls rs
            step_dt : ℚ) / 3) ∧
    0 ≤ balanced_stance_duration_reward prev_counter standing_leg ls rs
          step_dt ∧
    balanced_stance_duration_reward prev_counter standing_leg ls rs
      step_dt < 1 := by
  have hc :
      0 ≤ balanced_stance_counter_next prev_counter standing_leg ls rs
            step_dt := by
    simp only [balanced_stance_counter_next]
    split
    · exact add_nonneg hprev hdt
    · exact le_refl 0
  have hx :
      (0 : ℝ) ≤
        ((balanced_stance_counter_next prev_counter standing_leg ls rs
            step_dt : ℚ) : ℝ) / 3 := by
    apply div_nonneg _ (by norm_num)
    exact_mod_cast hc
  have htanh := tanh_nonneg_lt_one _ hx
  refine ⟨?_, ?_, ?_, rfl, htanh.1, htanh.2⟩
  · intro hv
    simp only [balanced_stance_counter_next, hv, if_true]
  · intro hv
    simp [balanced_stance_counter_next, hv]
  · intro h
    rw [h, Option.getD_none]

/-- Witness for C10: a half-second-old counter, standing on the left leg
with only the left foot in contact, 50 Hz control step. -/
theorem balanced_stance_duration_spec_witness :
    (0 : ℚ) ≤ (some (1/2) : Option ℚ).getD 0 ∧ (0 : ℚ) ≤ 1/50 ∧
    ((valid_single_leg_stance 0 (decide ((1 : ℚ) > 0))
         (decide ((0 : ℚ) > 0)) = true →
       balanced_stance_counter_next (some (1/2)) 0 1 0 (1/50) =
         (some (1/2) : Option ℚ).getD 0 + 1/50) ∧
     (valid_single_leg_stance 0 (decide ((1 : ℚ) > 0))
         (decide ((0 : ℚ) > 0)) = false →
       balanced_stance_counter_next (some (1/2)) 0 1 0 (1/50) = 0) ∧
     ((some (1/2) : Option ℚ) = none →
       (some (1/2) : Option ℚ).getD 0 = 0) ∧
     balanced_stance_duration_reward (some (1/2)) 0 1 0 (1/50) =
       Real.tanh
         ((balanced_stance_counter_next (some (1/2)) 0 1 0 (1/50) : ℚ) /
           3) ∧
     0 ≤ balanced_stance_duration_reward (some (1/2)) 0 1 0 (1/50) ∧
     balanced_stance_duration_reward (some (1/2)) 0 1 0 (1/50) < 1) :=
  ⟨by norm_num, by norm_num,
   balanced_stance_duration_spec (some (1/2)) 0 1 0 (1/50)
     (by norm_num) (by norm_num)⟩

/-- Witness for C6: two environments, only environment 0's left foot in
contact; environment 1 has both feet off the ground. -/
theorem both_feet_off_ground_spec_witness :
    (both_feet_off_ground 2 (fun i => if i = 0 then 1 else 0)
      (fun _ => 0)).length = 2 ∧
    (both_feet_off_ground 2 (fun i => if i = 0 then 1 else 0)
      (fun _ => 0)).get? 1 =
      some (decide
        (¬ (if (1 : Nat) = 0 then (1 : ℚ) else 0) > 0 ∧
         ¬ ((0 : ℚ) > 0))) :=
  ⟨(both_feet_off_ground_spec 2 (fun i => if i = 0 then 1 else 0)
      (fun _ => 0)).1,
   (both_feet_off_ground_spec 2 (fun i => if i = 0 then 1 else 0)
      (fun _ => 0)).2 1 (by decide)⟩
